import Mathlib

/-!
Verification of the gpt2giga proxy (src/gpt2giga.py): a shallow embedding of
its JSON data model, the request-direction translation `transform_input_data`,
the response-direction translation `process_gigachat_response`, the deep
null-stripping pass `remove_none`, and the request/streaming logic of
`ProxyHandler.handle_proxy_request`, together with theorems settling the
specified properties.

Python `None`/JSON `null` is `Json.null`; Python dicts are association lists
preserving insertion order (Python 3 dicts are ordered, and key assignment
keeps the position of an existing key).  JSON numeric leaves are modelled as
integers; floating-point formatting is outside the model (the only numeric
request field the code inspects, `temperature`, is modelled exactly, as a
rational, in the `ChatRequest` record below).
-/

inductive Json where
  | null : Json
  | bool : Bool → Json
  | num : Int → Json
  | str : String → Json
  | arr : List Json → Json
  | obj : List (String × Json) → Json
  deriving Repr

/-- Models the Python test `v is None`. -/
def Json.isNull : Json → Bool
  | Json.null => true
  | _ => false

/-- Python truthiness of a JSON value (`if x:`): `None`, `False`, `0`, `""`,
`[]` and the empty dict are falsy. -/
def jsonTruthy : Json → Bool
  | Json.null => false
  | Json.bool b => b
  | Json.num n => n != 0
  | Json.str s => s != ""
  | Json.arr xs => !xs.isEmpty
  | Json.obj kvs => !kvs.isEmpty

/-- Reads `d[k]` on a Python dict: first (unique) binding of the key. -/
def lookup : List (String × Json) → String → Option Json
  | [], _ => none
  | (k', v) :: rest, k => if k' = k then some v else lookup rest k

/-- Writes `d[k] = v` on a Python dict: overwrite in place, else append at the end. -/
def setKey : List (String × Json) → String → Json → List (String × Json)
  | [], k, v => [(k, v)]
  | (k', v') :: rest, k, v =>
    if k' = k then (k, v) :: rest else (k', v') :: setKey rest k v

/-- Removes a key, the effect of `d.pop(k, None)` on a Python dict. -/
def popKey : List (String × Json) → String → List (String × Json)
  | [], _ => []
  | (k', v) :: rest, k => if k' = k then rest else (k', v) :: popKey rest k

/-- Models `j == "s"` in Python: true only when `j` is that string. -/
def Json.isStr : Json → String → Bool
  | Json.str t, s => t = s
  | _, _ => false

/-! ## `remove_none` (src/gpt2giga.py lines 30-45)

Recursively removes `None` values from dictionaries and lists: a dict
comprehension keeping the non-`None` entries and cleaning each kept value,
and the same for lists. -/

mutual

def remove_none : Json → Json
  | Json.obj kvs => Json.obj (removeNoneObj kvs)
  | Json.arr xs => Json.arr (removeNoneArr xs)
  | v => v

def removeNoneObj : List (String × Json) → List (String × Json)
  | [] => []
  | (k, v) :: rest =>
    if v.isNull then removeNoneObj rest
    else (k, remove_none v) :: removeNoneObj rest

def removeNoneArr : List Json → List Json
  | [] => []
  | v :: rest =>
    if v.isNull then removeNoneArr rest
    else remove_none v :: removeNoneArr rest

end

/-! `cleanJson v`: no object field and no array element of `v`, at any
nesting depth, is `null`. -/

mutual

def cleanJson : Json → Bool
  | Json.obj kvs => cleanObj kvs
  | Json.arr xs => cleanArr xs
  | _ => true

def cleanObj : List (String × Json) → Bool
  | [] => true
  | (_, v) :: rest => !v.isNull && cleanJson v && cleanObj rest

def cleanArr : List Json → Bool
  | [] => true
  | v :: rest => !v.isNull && cleanJson v && cleanArr rest

end

/-! ## `json.dumps(..., ensure_ascii=False)`

Serialization with the default separators `", "` and `": "`; `"`,
backslash and control characters are escaped, everything else is passed
through unchanged. -/

def hexDigit (n : Nat) : Char :=
  if n < 10 then Char.ofNat (48 + n) else Char.ofNat (87 + n)

def escapeChar (c : Char) : String :=
  if c = '"' then "\\\""
  else if c = '\\' then "\\\\"
  else if c = '\n' then "\\n"
  else if c = '\r' then "\\r"
  else if c = '\t' then "\\t"
  else if c = Char.ofNat 8 then "\\b"
  else if c = Char.ofNat 12 then "\\f"
  else if c.toNat < 32 then
    String.mk ['\\', 'u', '0', '0', hexDigit (c.toNat / 16), hexDigit (c.toNat % 16)]
  else String.singleton c

def dumpString (s : String) : String :=
  "\"" ++ String.join (s.data.map escapeChar) ++ "\""

mutual

def dumps : Json → String
  | Json.null => "null"
  | Json.bool true => "true"
  | Json.bool false => "false"
  | Json.num n => toString n
  | Json.str s => dumpString s
  | Json.arr xs => "[" ++ dumpsList xs ++ "]"
  | Json.obj kvs => "\x7b" ++ dumpsObj kvs ++ "\x7d"

def dumpsList : List Json → String
  | [] => ""
  | [v] => dumps v
  | v :: rest => dumps v ++ ", " ++ dumpsList rest

def dumpsObj : List (String × Json) → String
  | [] => ""
  | [(k, v)] => dumpString k ++ ": " ++ dumps v
  | (k, v) :: rest => dumpString k ++ ": " ++ dumps v ++ ", " ++ dumpsObj rest

end

/-! ## Request data model and `transform_input_data` (lines 47-81) -/

/-- A chat message as the translation touches it.  `content = none` models a
message without a `"content"` key (reading it then raises `KeyError`);
`some Json.null` models an explicit `null`. -/
structure Message where
  role : String
  content : Option Json := none
  name : Option Json := none
  deriving Repr

/-- An entry of the tools list of the request: the two keys the code reads. -/
structure Tool where
  type : String
  function : Json
  deriving Repr

/-- The inbound chat-completion request body (after `stream` was popped by the
handler), restricted to the keys `transform_input_data` touches.  `none`
models an absent key. -/
structure ChatRequest where
  model : Option Json := none
  temperature : Option Rat := none
  top_p : Option Rat := none
  tools : Option (List Tool) := none
  functions : Option (List Json) := none
  messages : Option (List Message) := none
  deriving Repr

/-- The dict sent to `Chat.parse_obj`: the request after translation
(`model` popped, `temperature`/`top_p` rewritten, `functions` possibly
derived, messages rewritten in place). -/
structure BackendChatRequest where
  temperature : Option Rat := none
  top_p : Option Rat := none
  tools : Option (List Tool) := none
  functions : Option (List Json) := none
  messages : List Message
  deriving Repr

/-- The body of the `for i, message in enumerate(data["messages"])` loop for
one message: pop `name`; demote a non-first system message to `user`;
rewrite a tool message to role `function` with JSON-serialized content;
coerce `null` content to `""` (reading an absent `content` key raises). -/
def transformMessage (i : Nat) (m : Message) : Except String Message :=
  let m := { m with name := none }
  let m := if m.role = "system" ∧ i > 0 then { m with role := "user" } else m
  let m := if m.role = "tool" then
      { m with role := "function",
               content := some (Json.str (dumps (m.content.getD (Json.str "")))) }
    else m
  match m.content with
  | none => Except.error "KeyError: content"
  | some c =>
    Except.ok (if c.isNull then { m with content := some (Json.str "") } else m)

/-- The enumerated message loop, indices starting at `i`. -/
def transformMessages (i : Nat) : List Message → Except String (List Message)
  | [] => Except.ok []
  | m :: rest =>
    match transformMessage i m with
    | Except.error e => Except.error e
    | Except.ok m' =>
      match transformMessages (i + 1) rest with
      | Except.error e => Except.error e
      | Except.ok rest' => Except.ok (m' :: rest')

/-- Truthiness of `data.get("tools")`: true exactly when the key holds a non-empty
list. -/
def toolsTruthy : Option (List Tool) → Bool
  | some (_ :: _) => true
  | _ => false

/-- The translation `transform_input_data` (lines 47-81): pop `model`; pop `temperature` and
apply the temperature policy; derive `functions` from `tools` when the caller
did not supply `functions` and `tools` is truthy; run the message loop.
Returns the backend request together with the popped model name. -/
def transform_input_data (data : ChatRequest) :
    Except String (BackendChatRequest × Option Json) :=
  let gpt_model := data.model
  let (outTemp, outTopP) :=
    match data.temperature with
    | some t =>
      if t = 0 then (none, some (0 : Rat))
      else if t > 0 then (some t, data.top_p)
      else (none, data.top_p)
    | none => (none, data.top_p)
  let functions :=
    if data.functions.isNone && toolsTruthy data.tools then
      some ((data.tools.getD []).filterMap
        (fun tool => if tool.type = "function" then some tool.function else none))
    else data.functions
  match data.messages with
  | none => Except.error "KeyError: messages"
  | some msgs =>
    match transformMessages 0 msgs with
    | Except.error e => Except.error e
    | Except.ok msgs' =>
      Except.ok ({ temperature := outTemp, top_p := outTopP, tools := data.tools,
                   functions := functions, messages := msgs' }, gpt_model)

/-! ## Response data model and `process_gigachat_response` (lines 83-131) -/

/-- Reading a key that a dict must have (`d[k]` raising `KeyError`). -/
def requireKey (kvs : List (String × Json)) (k : String) : Except String Json :=
  match lookup kvs k with
  | some v => Except.ok v
  | none => Except.error ("KeyError: " ++ k)

/-- A value used as a dict (item assignment / item read on a non-dict raises
`TypeError`). -/
def asObj : Json → Except String (List (String × Json))
  | Json.obj kvs => Except.ok kvs
  | _ => Except.error "TypeError: not a dict"

/-- A value iterated as the `choices` list (non-list shapes fail). -/
def asArr : Json → Except String (List Json)
  | Json.arr xs => Except.ok xs
  | _ => Except.error "TypeError: not a list"

/-- Lines 101-114 applied to a message dict on which `refusal = None` was
already set: if the role is `"assistant"` and `function_call` is truthy,
re-serialize its `arguments` as a JSON string, rebuild `function_call` as
`{name, arguments}`, turn empty-string `content` into `null`, drop
`functions_state_id` and re-set `refusal = None`. -/
def processMessageKvs (mkvs : List (String × Json)) :
    Except String (List (String × Json)) :=
  match lookup mkvs "role" with
  | none => Except.error "KeyError: role"
  | some role =>
    if role.isStr "assistant" then
      match lookup mkvs "function_call" with
      | some fc =>
        if jsonTruthy fc then
          match asObj fc with
          | Except.error e => Except.error e
          | Except.ok fckvs =>
            match lookup fckvs "arguments" with
            | none => Except.error "KeyError: arguments"
            | some args =>
              match lookup fckvs "name" with
              | none => Except.error "KeyError: name"
              | some nm =>
                let mkvs := setKey mkvs "function_call"
                    (Json.obj [("name", nm), ("arguments", Json.str (dumps args))])
                let mkvs :=
                  if (lookup mkvs "content").any (fun c => c.isStr "") then
                    setKey mkvs "content" Json.null
                  else mkvs
                let mkvs := popKey mkvs "functions_state_id"
                Except.ok (setKey mkvs "refusal" Json.null)
        else Except.ok mkvs
      | none => Except.ok mkvs
    else Except.ok mkvs

/-- Lines 97-114, the loop body for one element of `giga_dict["choices"]`:
force `index = 0`, `logprobs = None`, `message.refusal = None`, and apply the
assistant `function_call` rewriting to the message in place. -/
def processChoice (choice : Json) : Except String Json :=
  match asObj choice with
  | Except.error e => Except.error e
  | Except.ok ckvs =>
    let ckvs := setKey ckvs "index" (Json.num 0)
    let ckvs := setKey ckvs "logprobs" Json.null
    match lookup ckvs "message" with
    | none => Except.error "KeyError: message"
    | some msg =>
      match asObj msg with
      | Except.error e => Except.error e
      | Except.ok mkvs =>
        match processMessageKvs (setKey mkvs "refusal" Json.null) with
        | Except.error e => Except.error e
        | Except.ok mkvs' =>
          Except.ok (Json.obj (setKey ckvs "message" (Json.obj mkvs')))

def processChoices : List Json → Except String (List Json)
  | [] => Except.ok []
  | c :: rest =>
    match processChoice c with
    | Except.error e => Except.error e
    | Except.ok c' =>
      match processChoices rest with
      | Except.error e => Except.error e
      | Except.ok rest' => Except.ok (c' :: rest')

/-- The literal `usage` object of the result dict (lines 122-128). -/
def usageConst : Json :=
  Json.obj
    [("prompt_tokens", Json.num 10),
     ("completion_tokens", Json.num 10),
     ("total_tokens", Json.num 20),
     ("prompt_tokens_details", Json.obj [("cached_tokens", Json.num 0)]),
     ("completion_tokens_details", Json.obj [("reasoning_tokens", Json.num 0)])]

/-- The result dict built at lines 116-130.  The two fresh UUIDs and the
epoch-milliseconds timestamp are parameters of the model. -/
structure ChatResponse where
  id : String
  object : String
  created : Int
  model : Option Json
  choices : List Json
  usage : Json
  system_fingerprint : String
  deriving Repr

/-- The translation `process_gigachat_response` (lines 83-131): deep-strip nulls from the
backend response, rewrite every choice, and assemble the client-facing
response envelope with synthetic id, timestamp, echoed model and constant
usage. -/
def process_gigachat_response (giga_resp : Json) (gpt_model : Option Json)
    (u1 u2 : String) (now : Int) : Except String ChatResponse :=
  match asObj (remove_none giga_resp) with
  | Except.error e => Except.error e
  | Except.ok kvs =>
    match requireKey kvs "choices" with
    | Except.error e => Except.error e
    | Except.ok choicesJ =>
      match asArr choicesJ with
      | Except.error e => Except.error e
      | Except.ok choices =>
        match processChoices choices with
        | Except.error e => Except.error e
        | Except.ok choices' =>
          Except.ok
            { id := "chatcmpl-" ++ u1,
              object := "chat.completion",
              created := now,
              model := gpt_model,
              choices := choices',
              usage := usageConst,
              system_fingerprint := "fp_" ++ u2 }

/-! ## `send_to_gigachat` and the connection handler (lines 133-250)

The backend client (`giga.chat`) is an external capability, modelled as an
oracle from the translated request to a backend-schema JSON response or a
failure. -/

def send_to_gigachat (backend : BackendChatRequest → Except String Json)
    (data : ChatRequest) (u1 u2 : String) (now : Int) :
    Except String ChatResponse :=
  match transform_input_data data with
  | Except.error e => Except.error e
  | Except.ok (chat, gpt_model) =>
    match backend chat with
    | Except.error e => Except.error e
    | Except.ok giga_resp => process_gigachat_response giga_resp gpt_model u1 u2 now

/-- The JSON body the handler parsed, with the `stream` flag already popped
(`json_body.pop("stream", False)`); `none` models an absent key. -/
structure ParsedBody where
  stream : Option Json := none
  request : ChatRequest
  deriving Repr

/-- What `handle_proxy_request` writes back: a JSON success body, a streaming
success (the ordered `wfile.write` strings), or `send_error`. -/
inductive HttpResult where
  | jsonResponse (status : Nat) (body : ChatResponse)
  | streamResponse (status : Nat) (writes : List String)
  | errorResponse (status : Nat) (msg : String)
  deriving Repr

/-- The `to_send` StreamChunk dict of lines 212-226, built from
`choices[0]` of the completed response (an empty `choices` list raises
`IndexError`, missing keys raise `KeyError`). -/
def buildStreamChunk (resp : ChatResponse) : Except String Json :=
  match resp.choices with
  | [] => Except.error "IndexError: choices"
  | c0 :: _ =>
    match asObj c0 with
    | Except.error e => Except.error e
    | Except.ok ckvs =>
      match lookup ckvs "message" with
      | none => Except.error "KeyError: message"
      | some msg =>
        match lookup ckvs "finish_reason" with
        | none => Except.error "KeyError: finish_reason"
        | some fr =>
          Except.ok (Json.obj
            [("id", Json.str resp.id),
             ("object", Json.str "chat.completion.chunk"),
             ("created", Json.num resp.created),
             ("model", resp.model.getD Json.null),
             ("system_fingerprint", Json.str resp.system_fingerprint),
             ("choices", Json.arr
               [Json.obj
                 [("index", Json.num 0),
                  ("delta", msg),
                  ("logprobs", Json.null),
                  ("finish_reason", fr)]])])

/-- An SSE data frame as the handler writes it. -/
def sseFrame (payload : String) : String := "data: " ++ payload ++ "\r\n\r\n"

/-- Whether a written string is an SSE data frame (begins with `data: `). -/
def isDataFrame (s : String) : Bool := "data: ".data.isPrefixOf s.data

/-- The handler `handle_proxy_request` (lines 180-250) after JSON decoding: run the
translation pipeline; on success answer either with the single JSON body or,
when `stream` is truthy, with one data frame holding the StreamChunk, the
`[DONE]` sentinel frame and a trailing blank line; any raised error becomes a
500 via `send_error`. -/
def handle_proxy_request (backend : BackendChatRequest → Except String Json)
    (body : ParsedBody) (u1 u2 : String) (now : Int) : HttpResult :=
  match send_to_gigachat backend body.request u1 u2 now with
  | Except.error e => HttpResult.errorResponse 500 e
  | Except.ok resp =>
    if jsonTruthy (body.stream.getD (Json.bool false)) then
      match buildStreamChunk resp with
      | Except.error e => HttpResult.errorResponse 500 e
      | Except.ok chunk =>
        HttpResult.streamResponse 200
          [sseFrame (dumps chunk), sseFrame "[DONE]", "\r\n\r\n"]
    else
      HttpResult.jsonResponse 200 resp

/-! ## Derived predicates and concrete sample values -/

def optNum0 : Option Json → Bool
  | some (Json.num n) => n == 0
  | _ => false

def optNull : Option Json → Bool
  | some Json.null => true
  | _ => false

/-- The normalized shape of one translated choice: `index` is `0`, the
`logprobs` key is present and `null`, and the message dict carries a
`refusal` key that is present and `null`. -/
def choiceOk (c : Json) : Bool :=
  match c with
  | Json.obj kvs =>
    optNum0 (lookup kvs "index") && optNull (lookup kvs "logprobs") &&
      (match lookup kvs "message" with
       | some (Json.obj mkvs) => optNull (lookup mkvs "refusal")
       | _ => false)
  | _ => false

/-- A plain one-message user request. -/
def userMsg : Message := { role := "user", content := some (Json.str "hi") }

/-- A typical backend-schema completion: one assistant choice. -/
def sampleGigaResp : Json :=
  Json.obj [("choices", Json.arr
    [Json.obj
      [("message", Json.obj
        [("role", Json.str "assistant"), ("content", Json.str "Hello")]),
       ("finish_reason", Json.str "stop")]])]

/-- The backend oracle that always answers `sampleGigaResp`. -/
def sampleBackend : BackendChatRequest → Except String Json :=
  fun _ => Except.ok sampleGigaResp

/-- The sole choice of `sampleGigaResp` after `process_gigachat_response`. -/
def sampleProcessedChoice : Json :=
  Json.obj
    [("message", Json.obj
      [("role", Json.str "assistant"), ("content", Json.str "Hello"),
       ("refusal", Json.null)]),
     ("finish_reason", Json.str "stop"),
     ("index", Json.num 0),
     ("logprobs", Json.null)]

/-- The response envelope for `sampleGigaResp` with UUIDs `"u"`, `"v"` and
timestamp `0`. -/
def sampleChatResponse : ChatResponse :=
  { id := "chatcmpl-u", object := "chat.completion", created := 0,
    model := none, choices := [sampleProcessedChoice], usage := usageConst,
    system_fingerprint := "fp_v" }

/-- The StreamChunk dict for `sampleChatResponse`. -/
def sampleChunk : Json :=
  Json.obj
    [("id", Json.str "chatcmpl-u"),
     ("object", Json.str "chat.completion.chunk"),
     ("created", Json.num 0),
     ("model", Json.null),
     ("system_fingerprint", Json.str "fp_v"),
     ("choices", Json.arr
       [Json.obj
         [("index", Json.num 0),
          ("delta", Json.obj
            [("role", Json.str "assistant"), ("content", Json.str "Hello"),
             ("refusal", Json.null)]),
          ("logprobs", Json.null),
          ("finish_reason", Json.str "stop")]])]

/-- A streaming request body. -/
def sampleStreamBody : ParsedBody :=
  { stream := some (Json.bool true), request := { messages := some [userMsg] } }

def sampleStreamWrites : List String :=
  [sseFrame (dumps sampleChunk), sseFrame "[DONE]", "\r\n\r\n"]

/-- A body whose request lacks the `messages` key. -/
def noMessagesBody : ParsedBody := { request := {} }

/-- A request containing a single tool-role message with string content. -/
def reqTool : ChatRequest :=
  { messages := some [{ role := "tool", content := some (Json.str "ok") }] }

def chatTool : BackendChatRequest :=
  { messages := [{ role := "function",
                   content := some (Json.str (dumps (Json.str "ok"))),
                   name := none }] }

/-- A request containing a single user message with `null` content. -/
def reqNull : ChatRequest :=
  { messages := some [{ role := "user", content := some Json.null }] }

def chatNull : BackendChatRequest :=
  { messages := [{ role := "user", content := some (Json.str ""), name := none }] }

/-- A request with `temperature = 0`. -/
def reqTemp0 : ChatRequest :=
  { temperature := some 0, messages := some [userMsg] }

def chatTemp0 : BackendChatRequest :=
  { top_p := some 0,
    messages := [{ role := "user", content := some (Json.str "hi"), name := none }] }

/-- A request with a leading system message and a second system message. -/
def reqSys : ChatRequest :=
  { messages := some [{ role := "system", content := some (Json.str "a") },
                      { role := "system", content := some (Json.str "b") }] }

def chatSys : BackendChatRequest :=
  { messages := [{ role := "system", content := some (Json.str "a"), name := none },
                 { role := "user", content := some (Json.str "b"), name := none }] }

/-- A tools list with one `function`-typed and one other-typed tool. -/
def toolList : List Tool :=
  [{ type := "function", function := Json.obj [("name", Json.str "f")] },
   { type := "retrieval", function := Json.null }]

/-- A request supplying `toolList` and no `functions`. -/
def reqTools : ChatRequest :=
  { tools := some toolList, messages := some [userMsg] }

def chatTools : BackendChatRequest :=
  { tools := some toolList,
    functions := some [Json.obj [("name", Json.str "f")]],
    messages := [{ role := "user", content := some (Json.str "hi"), name := none }] }

/-! ## Association-list lemmas -/

theorem lookup_setKey_self (kvs : List (String × Json)) (k : String) (v : Json) :
    lookup (setKey kvs k v) k = some v := by
  induction kvs with
  | nil => simp [setKey, lookup]
  | cons hd tl ih =>
    obtain ⟨k', v'⟩ := hd
    by_cases hk : k' = k
    · simp [setKey, hk, lookup]
    · simp [setKey, hk, lookup, ih]

theorem lookup_setKey_ne (kvs : List (String × Json)) (k k' : String) (v : Json)
    (h : k' ≠ k) : lookup (setKey kvs k' v) k = lookup kvs k := by
  induction kvs with
  | nil => simp [setKey, lookup, h]
  | cons hd tl ih =>
    obtain ⟨k0, v0⟩ := hd
    by_cases hk : k0 = k'
    · simp [setKey, hk, lookup, h]
    · simp [setKey, hk, lookup, ih]

theorem lookup_popKey_ne (kvs : List (String × Json)) (k k' : String)
    (h : k' ≠ k) : lookup (popKey kvs k') k = lookup kvs k := by
  induction kvs with
  | nil => simp [popKey]
  | cons hd tl ih =>
    obtain ⟨k0, v0⟩ := hd
    by_cases hk : k0 = k'
    · subst hk
      simp [popKey, lookup, h]
    · simp [popKey, hk, lookup, ih]

/-! ## `remove_none`: cleanliness and idempotence -/

theorem isNull_remove_none (v : Json) : (remove_none v).isNull = v.isNull := by
  cases v <;> simp [remove_none, Json.isNull]

mutual

theorem cleanJson_remove_none : (v : Json) → cleanJson (remove_none v) = true
  | Json.null => rfl
  | Json.bool _ => rfl
  | Json.num _ => rfl
  | Json.str _ => rfl
  | Json.arr xs => by
    simpa [remove_none, cleanJson] using cleanArr_removeNoneArr xs
  | Json.obj kvs => by
    simpa [remove_none, cleanJson] using cleanObj_removeNoneObj kvs

theorem cleanObj_removeNoneObj : (kvs : List (String × Json)) →
    cleanObj (removeNoneObj kvs) = true
  | [] => rfl
  | (k, v) :: rest => by
    by_cases hv : v.isNull = true
    · simpa [removeNoneObj, hv] using cleanObj_removeNoneObj rest
    · simp [removeNoneObj, hv, cleanObj, isNull_remove_none,
        cleanJson_remove_none v, cleanObj_removeNoneObj rest]

theorem cleanArr_removeNoneArr : (xs : List Json) →
    cleanArr (removeNoneArr xs) = true
  | [] => rfl
  | v :: rest => by
    by_cases hv : v.isNull = true
    · simpa [removeNoneArr, hv] using cleanArr_removeNoneArr rest
    · simp [removeNoneArr, hv, cleanArr, isNull_remove_none,
        cleanJson_remove_none v, cleanArr_removeNoneArr rest]

end

mutual

theorem remove_none_of_clean : (v : Json) → cleanJson v = true → remove_none v = v
  | Json.null, _ => rfl
  | Json.bool _, _ => rfl
  | Json.num _, _ => rfl
  | Json.str _, _ => rfl
  | Json.arr xs, h => by
    simp only [cleanJson] at h
    simp [remove_none, removeNoneArr_of_clean xs h]
  | Json.obj kvs, h => by
    simp only [cleanJson] at h
    simp [remove_none, removeNoneObj_of_clean kvs h]

theorem removeNoneObj_of_clean : (kvs : List (String × Json)) →
    cleanObj kvs = true → removeNoneObj kvs = kvs
  | [], _ => rfl
  | (k, v) :: rest, h => by
    simp only [cleanObj, Bool.and_eq_true, Bool.not_eq_true'] at h
    simp [removeNoneObj, h.1.1, remove_none_of_clean v h.1.2,
      removeNoneObj_of_clean rest h.2]

theorem removeNoneArr_of_clean : (xs : List Json) →
    cleanArr xs = true → removeNoneArr xs = xs
  | [], _ => rfl
  | v :: rest, h => by
    simp only [cleanArr, Bool.and_eq_true, Bool.not_eq_true'] at h
    simp [removeNoneArr, h.1.1, remove_none_of_clean v h.1.2,
      removeNoneArr_of_clean rest h.2]

end

/-! ## `transformMessage` characterization -/

theorem transformMessage_tool (i : Nat) (m : Message) (c : Json)
    (hr : m.role = "tool") (hc : m.content = some c) :
    transformMessage i m =
      Except.ok { role := "function", content := some (Json.str (dumps c)), name := none } := by
  simp [transformMessage, hr, hc, Json.isNull]

theorem transformMessage_nontool (i : Nat) (m : Message) (c : Json)
    (hr : m.role ≠ "tool") (hc : m.content = some c) :
    transformMessage i m =
      Except.ok { role := if m.role = "system" ∧ i > 0 then "user" else m.role,
                  content := some (if c.isNull then Json.str "" else c),
                  name := none } := by
  by_cases h1 : m.role = "system" ∧ i > 0
  · simp only [transformMessage, h1, if_true]
    simp [hc]
    by_cases hn : c.isNull <;> simp [hn]
  · simp only [transformMessage, h1, if_false]
    simp [hc, hr]
    by_cases hn : c.isNull <;> simp [hn]

theorem transformMessage_nocontent (i : Nat) (m : Message)
    (hr : m.role ≠ "tool") (hc : m.content = none) :
    transformMessage i m = Except.error "KeyError: content" := by
  by_cases h1 : m.role = "system" ∧ i > 0 <;>
    simp [transformMessage, h1, hr, hc]

theorem transformMessage_tool_nocontent (i : Nat) (m : Message)
    (hr : m.role = "tool") (hc : m.content = none) :
    transformMessage i m =
      Except.ok { role := "function",
                  content := some (Json.str (dumps (Json.str ""))),
                  name := none } := by
  simp [transformMessage, hr, hc, Json.isNull]

theorem transformMessage_role (i : Nat) (m m' : Message)
    (h : transformMessage i m = Except.ok m') :
    m'.role = (if (if m.role = "system" ∧ i > 0 then "user" else m.role) = "tool"
               then "function"
               else (if m.role = "system" ∧ i > 0 then "user" else m.role)) := by
  by_cases h1 : m.role = "system" ∧ i > 0
  · have hr : m.role ≠ "tool" := by
      intro hcontra
      rw [hcontra] at h1
      exact absurd h1.1 (by decide)
    cases hc : m.content with
    | none =>
      rw [transformMessage_nocontent i m hr hc] at h
      exact absurd h (by simp)
    | some c =>
      rw [transformMessage_nontool i m c hr hc] at h
      injection h with h
      rw [← h]
      simp [h1]
  · by_cases h2 : m.role = "tool"
    · cases hc : m.content with
      | none =>
        rw [transformMessage_tool_nocontent i m h2 hc] at h
        injection h with h
        rw [← h]
        simp [h1, h2]
      | some c =>
        rw [transformMessage_tool i m c h2 hc] at h
        injection h with h
        rw [← h]
        simp [h1, h2]
    · cases hc : m.content with
      | none =>
        rw [transformMessage_nocontent i m h2 hc] at h
        exact absurd h (by simp)
      | some c =>
        rw [transformMessage_nontool i m c h2 hc] at h
        injection h with h
        rw [← h]
        simp [h1, h2]

/-! ## `transformMessages` and `transform_input_data` characterization -/

theorem transformMessages_length : ∀ (msgs : List Message) (i : Nat) (msgs' : List Message),
    transformMessages i msgs = Except.ok msgs' → msgs'.length = msgs.length
  | [], _, _, h => by
    simp only [transformMessages] at h
    injection h with h
    simp [← h]
  | m :: rest, i, msgs', h => by
    simp only [transformMessages] at h
    split at h
    · exact absurd h (by simp)
    · split at h
      · exact absurd h (by simp)
      · injection h with h
        subst h
        simp [transformMessages_length rest (i + 1) _ (by assumption)]

theorem transformMessages_get : ∀ (msgs : List Message) (i : Nat) (msgs' : List Message)
    (j : Nat) (hj : j < msgs.length) (hj' : j < msgs'.length),
    transformMessages i msgs = Except.ok msgs' →
    transformMessage (i + j) (msgs.get ⟨j, hj⟩) = Except.ok (msgs'.get ⟨j, hj'⟩)
  | [], _, _, j, hj, _, _ => absurd hj (by simp)
  | m :: rest, i, msgs', j, hj, hj', h => by
    simp only [transformMessages] at h
    split at h
    · exact absurd h (by simp)
    · rename_i m' hm'
      split at h
      · exact absurd h (by simp)
      · rename_i rest' hrest'
        injection h with h
        subst h
        cases j with
        | zero => simpa using hm'
        | succ j0 =>
          have := transformMessages_get rest (i + 1) rest' j0
            (by simpa using hj) (by simpa using hj') hrest'
          simpa [Nat.add_assoc, Nat.add_comm 1 j0] using this

/-- Success of `transform_input_data` determines every output component. -/
theorem transform_input_data_ok (data : ChatRequest) (chat : BackendChatRequest)
    (gm : Option Json) (h : transform_input_data data = Except.ok (chat, gm)) :
    ∃ msgs msgs', data.messages = some msgs ∧
      transformMessages 0 msgs = Except.ok msgs' ∧
      gm = data.model ∧
      chat = { temperature := (match data.temperature with
                 | some t => if t = 0 then (none, some (0 : Rat))
                             else if t > 0 then (some t, data.top_p)
                             else (none, data.top_p)
                 | none => (none, data.top_p)).1,
               top_p := (match data.temperature with
                 | some t => if t = 0 then (none, some (0 : Rat))
                             else if t > 0 then (some t, data.top_p)
                             else (none, data.top_p)
                 | none => (none, data.top_p)).2,
               tools := data.tools,
               functions := (if data.functions.isNone && toolsTruthy data.tools then
                   some ((data.tools.getD []).filterMap
                     (fun tool => if tool.type = "function" then some tool.function else none))
                 else data.functions),
               messages := msgs' } := by
  cases hms : data.messages with
  | none =>
    simp only [transform_input_data, hms] at h
    exact absurd h (by simp)
  | some msgs =>
    simp only [transform_input_data, hms] at h
    split at h
    · exact absurd h (by simp)
    · rename_i msgs' hmsgs'
      injection h with h
      injection h with h1 h2
      exact ⟨msgs, msgs', rfl, hmsgs', h2.symm, h1.symm⟩

/-! ## Claims about the request-direction translation -/

/-- C1: every request message with role `"tool"` is translated by
`transform_input_data` to a message with role `"function"` whose content is
the JSON-string encoding (`json.dumps`) of the original content value. -/
theorem tool_role_translation (data : ChatRequest) (chat : BackendChatRequest)
    (gm : Option Json) (msgs : List Message) (i : Nat) (c : Json)
    (hms : data.messages = some msgs)
    (ht : transform_input_data data = Except.ok (chat, gm))
    (hj : i < msgs.length) (hj' : i < chat.messages.length)
    (hrole : (msgs.get ⟨i, hj⟩).role = "tool")
    (hcontent : (msgs.get ⟨i, hj⟩).content = some c) :
    (chat.messages.get ⟨i, hj'⟩).role = "function" ∧
    (chat.messages.get ⟨i, hj'⟩).content = some (Json.str (dumps c)) := by
  obtain ⟨msgs0, msgs', hms0, hmsgs', hgm, hchat⟩ :=
    transform_input_data_ok data chat gm ht
  rw [hms] at hms0
  injection hms0 with hms0
  subst hms0
  subst hchat
  have hpt := transformMessages_get msgs 0 msgs' i hj (by simpa using hj') hmsgs'
  rw [Nat.zero_add, transformMessage_tool i _ c hrole hcontent] at hpt
  injection hpt with hpt
  exact ⟨(congrArg Message.role hpt).symm, (congrArg Message.content hpt).symm⟩

/-- Witness for C1: a concrete tool message with content `"ok"`. -/
theorem tool_role_translation_witness :
    transform_input_data reqTool = Except.ok (chatTool, none) ∧
    (chatTool.messages.get ⟨0, by decide⟩).role = "function" ∧
    (chatTool.messages.get ⟨0, by decide⟩).content =
      some (Json.str (dumps (Json.str "ok"))) :=
  ⟨rfl, tool_role_translation reqTool chatTool none
    [{ role := "tool", content := some (Json.str "ok") }] 0 (Json.str "ok")
    rfl rfl (by decide) (by decide) rfl rfl⟩

/-- C2 (amended): a message whose content is `null` is translated to content
`""` whenever its role is not `"tool"`; a `"tool"` message with `null`
content instead gets the four-character string `"null"` (its JSON
encoding), because the tool rewriting serializes the content before the
null-to-empty coercion runs. -/
theorem null_content_translation (data : ChatRequest) (chat : BackendChatRequest)
    (gm : Option Json) (msgs : List Message) (i : Nat)
    (hms : data.messages = some msgs)
    (ht : transform_input_data data = Except.ok (chat, gm))
    (hj : i < msgs.length) (hj' : i < chat.messages.length)
    (hcontent : (msgs.get ⟨i, hj⟩).content = some Json.null) :
    ((msgs.get ⟨i, hj⟩).role ≠ "tool" →
      (chat.messages.get ⟨i, hj'⟩).content = some (Json.str "")) ∧
    ((msgs.get ⟨i, hj⟩).role = "tool" →
      (chat.messages.get ⟨i, hj'⟩).content = some (Json.str "null")) := by
  obtain ⟨msgs0, msgs', hms0, hmsgs', hgm, hchat⟩ :=
    transform_input_data_ok data chat gm ht
  rw [hms] at hms0
  injection hms0 with hms0
  subst hms0
  subst hchat
  have hpt := transformMessages_get msgs 0 msgs' i hj (by simpa using hj') hmsgs'
  rw [Nat.zero_add] at hpt
  constructor
  · intro hrole
    rw [transformMessage_nontool i _ Json.null hrole hcontent] at hpt
    injection hpt with hpt
    have := (congrArg Message.content hpt).symm
    simpa [Json.isNull] using this
  · intro hrole
    rw [transformMessage_tool i _ Json.null hrole hcontent] at hpt
    injection hpt with hpt
    have := (congrArg Message.content hpt).symm
    simpa [dumps] using this

/-- Counterexample for C2 as stated: translating a tool message whose content
is `null` yields content `"null"`, not `""`. -/
theorem null_content_tool_cex :
    transform_input_data
        { messages := some [{ role := "tool", content := some Json.null }] } =
      Except.ok ({ messages := [{ role := "function",
                                  content := some (Json.str "null"),
                                  name := none }] }, none) ∧
    Json.str "null" ≠ Json.str "" :=
  ⟨rfl, by simp⟩

/-- Witness for C2 (amended): a user message with `null` content. -/
theorem null_content_translation_witness :
    transform_input_data reqNull = Except.ok (chatNull, none) ∧
    (chatNull.messages.get ⟨0, by decide⟩).content = some (Json.str "") :=
  ⟨rfl, (null_content_translation reqNull chatNull none
      [{ role := "user", content := some Json.null }] 0
      rfl rfl (by decide) (by decide) rfl).1 (by decide)⟩

/-- C3: the temperature policy of the request translation — `temperature = 0`
yields `top_p = 0` and no `temperature`; `temperature > 0` is passed through
with no `top_p` added; an absent `temperature` yields neither key. -/
theorem temperature_policy (data : ChatRequest) (chat : BackendChatRequest)
    (gm : Option Json)
    (ht : transform_input_data data = Except.ok (chat, gm))
    (htp : data.top_p = none) :
    (data.temperature = some 0 → chat.top_p = some 0 ∧ chat.temperature = none) ∧
    (∀ t : Rat, data.temperature = some t → 0 < t →
      chat.temperature = some t ∧ chat.top_p = none) ∧
    (data.temperature = none → chat.temperature = none ∧ chat.top_p = none) := by
  obtain ⟨msgs, msgs', hms0, hmsgs', hgm, hchat⟩ :=
    transform_input_data_ok data chat gm ht
  subst hchat
  refine ⟨?_, ?_, ?_⟩
  · intro h0
    simp [h0]
  · intro t hT hpos
    simp [hT, htp, hpos.ne', hpos]
  · intro h0
    simp [h0, htp]

/-- Witness for C3: a request carrying `temperature = 0`. -/
theorem temperature_policy_witness :
    transform_input_data reqTemp0 = Except.ok (chatTemp0, none) ∧
    reqTemp0.top_p = none ∧
    chatTemp0.top_p = some 0 ∧ chatTemp0.temperature = none :=
  ⟨rfl, rfl, (temperature_policy reqTemp0 chatTemp0 none rfl rfl).1 rfl⟩

/-- C4: after the request translation no message at index greater than 0 has
role `"system"`; every non-first message that had role `"system"` is
rewritten to role `"user"`; and a leading system message keeps its role. -/
theorem system_demotion (data : ChatRequest) (chat : BackendChatRequest)
    (gm : Option Json) (msgs : List Message)
    (hms : data.messages = some msgs)
    (ht : transform_input_data data = Except.ok (chat, gm)) :
    (∀ i (hj : i < msgs.length) (hj' : i < chat.messages.length),
      0 < i → (chat.messages.get ⟨i, hj'⟩).role ≠ "system") ∧
    (∀ i (hj : i < msgs.length) (hj' : i < chat.messages.length),
      0 < i → (msgs.get ⟨i, hj⟩).role = "system" →
      (chat.messages.get ⟨i, hj'⟩).role = "user") ∧
    (∀ (h0 : 0 < msgs.length) (h0' : 0 < chat.messages.length),
      (msgs.get ⟨0, h0⟩).role = "system" →
      (chat.messages.get ⟨0, h0'⟩).role = "system") := by
  obtain ⟨msgs0, msgs', hms0, hmsgs', hgm, hchat⟩ :=
    transform_input_data_ok data chat gm ht
  rw [hms] at hms0
  injection hms0 with hms0
  subst hms0
  subst hchat
  refine ⟨?_, ?_, ?_⟩
  · intro i hj hj' hi hcontra
    change i < msgs'.length at hj'
    change (msgs'.get ⟨i, hj'⟩).role = "system" at hcontra
    simp only [List.get_eq_getElem] at hcontra
    have hpt := transformMessages_get msgs 0 msgs' i hj hj' hmsgs'
    rw [Nat.zero_add] at hpt
    have hrole := transformMessage_role i _ _ hpt
    simp only [List.get_eq_getElem] at hrole
    rw [hcontra] at hrole
    by_cases hsys : msgs[i].role = "system" ∧ 0 < i
    · simp [hsys] at hrole
    · have hns : ¬ msgs[i].role = "system" := fun hx => hsys ⟨hx, hi⟩
      by_cases h2 : msgs[i].role = "tool"
      · simp [hsys, h2] at hrole
      · simp [hsys, h2] at hrole
        exact hns hrole.symm
  · intro i hj hj' hi hsys
    change i < msgs'.length at hj'
    change (msgs'.get ⟨i, hj'⟩).role = "user"
    simp only [List.get_eq_getElem] at hsys ⊢
    have hpt := transformMessages_get msgs 0 msgs' i hj hj' hmsgs'
    rw [Nat.zero_add] at hpt
    have hrole := transformMessage_role i _ _ hpt
    simp only [List.get_eq_getElem] at hrole
    simpa [hsys, hi] using hrole
  · intro h0 h0' hsys
    change 0 < msgs'.length at h0'
    change (msgs'.get ⟨0, h0'⟩).role = "system"
    simp only [List.get_eq_getElem] at hsys ⊢
    have hpt := transformMessages_get msgs 0 msgs' 0 h0 h0' hmsgs'
    rw [Nat.zero_add] at hpt
    have hrole := transformMessage_role 0 _ _ hpt
    simp only [List.get_eq_getElem] at hrole
    simpa [hsys] using hrole

/-- Witness for C4: a request with a leading and a second system message;
the second is rewritten to role `"user"`. -/
theorem system_demotion_witness :
    transform_input_data reqSys = Except.ok (chatSys, none) ∧
    (chatSys.messages.get ⟨1, by decide⟩).role ≠ "system" ∧
    (chatSys.messages.get ⟨1, by decide⟩).role = "user" ∧
    (chatSys.messages.get ⟨0, by decide⟩).role = "system" :=
  ⟨rfl,
   (system_demotion reqSys chatSys none
      [{ role := "system", content := some (Json.str "a") },
       { role := "system", content := some (Json.str "b") }] rfl rfl).1
     1 (by decide) (by decide) (by decide),
   (system_demotion reqSys chatSys none
      [{ role := "system", content := some (Json.str "a") },
       { role := "system", content := some (Json.str "b") }] rfl rfl).2.1
     1 (by decide) (by decide) (by decide) rfl,
   (system_demotion reqSys chatSys none
      [{ role := "system", content := some (Json.str "a") },
       { role := "system", content := some (Json.str "b") }] rfl rfl).2.2
     (by decide) (by decide) rfl⟩

/-- C5 (amended): when the request carries a non-empty `tools` list and no
`functions` key, the derived `functions` is the ordered `function` payload of
each `type == "function"` tool; a caller-supplied `functions` suppresses the
derivation entirely; but an empty `tools` list is falsy, so it derives
nothing and `functions` stays absent. -/
theorem functions_derivation (data : ChatRequest) (chat : BackendChatRequest)
    (gm : Option Json)
    (ht : transform_input_data data = Except.ok (chat, gm)) :
    (∀ ts, data.tools = some ts → ts ≠ [] → data.functions = none →
      chat.functions = some (ts.filterMap
        (fun tool => if tool.type = "function" then some tool.function else none))) ∧
    (∀ fs, data.functions = some fs → chat.functions = some fs) ∧
    (data.tools = some [] → data.functions = none → chat.functions = none) := by
  obtain ⟨msgs, msgs', hms0, hmsgs', hgm, hchat⟩ :=
    transform_input_data_ok data chat gm ht
  subst hchat
  refine ⟨?_, ?_, ?_⟩
  · intro ts hts hne hfn
    cases ts with
    | nil => exact absurd rfl hne
    | cons t rest => simp [hts, hfn, toolsTruthy]
  · intro fs hfs
    simp [hfs]
  · intro hts hfn
    simp [hts, hfn, toolsTruthy]

/-- Counterexample for C5 as stated: an empty `tools` list (with no
`functions` key) leaves `functions` absent in the backend request instead of
yielding an empty `functions` sequence. -/
theorem empty_tools_cex :
    transform_input_data { tools := some ([] : List Tool), messages := some [userMsg] } =
      Except.ok ({ tools := some [],
                   messages := [{ role := "user", content := some (Json.str "hi"),
                                  name := none }] }, none) ∧
    (none : Option (List Json)) ≠ some [] :=
  ⟨rfl, by simp⟩

/-- Witness for C5 (amended): a two-element tools list with one
`function`-typed entry. -/
theorem functions_derivation_witness :
    transform_input_data reqTools = Except.ok (chatTools, none) ∧
    chatTools.functions = some [Json.obj [("name", Json.str "f")]] :=
  ⟨rfl, (functions_derivation reqTools chatTools none rfl).1
    toolList rfl (List.cons_ne_nil _ _) rfl⟩

/-! ## Claims about `remove_none` -/

/-- C7: `remove_none` is idempotent, and its result contains no `null`
object-field or sequence-element values at any nesting depth. -/
theorem remove_none_idempotent (v : Json) :
    remove_none (remove_none v) = remove_none v ∧
    cleanJson (remove_none v) = true :=
  ⟨remove_none_of_clean _ (cleanJson_remove_none v), cleanJson_remove_none v⟩

/-! ## Claims about the response-direction translation -/

theorem processMessageKvs_refusal (mkvs mkvs' : List (String × Json))
    (h : processMessageKvs mkvs = Except.ok mkvs')
    (hr : lookup mkvs "refusal" = some Json.null) :
    lookup mkvs' "refusal" = some Json.null := by
  simp only [processMessageKvs] at h
  split at h
  · exact absurd h (by simp)
  · split at h
    · split at h
      · split at h
        · split at h
          · exact absurd h (by simp)
          · split at h
            · exact absurd h (by simp)
            · split at h
              · exact absurd h (by simp)
              · injection h with h
                rw [← h]
                exact lookup_setKey_self _ _ _
        · injection h with h
          rw [← h]
          exact hr
      · injection h with h
        rw [← h]
        exact hr
    · injection h with h
      rw [← h]
      exact hr

theorem processChoice_ok (c c' : Json) (h : processChoice c = Except.ok c') :
    choiceOk c' = true := by
  simp only [processChoice] at h
  split at h
  · exact absurd h (by simp)
  · split at h
    · exact absurd h (by simp)
    · rename_i ckvs hckvs msg hmsg
      split at h
      · exact absurd h (by simp)
      · rename_i mkvs hmkvs
        split at h
        · exact absurd h (by simp)
        · rename_i mkvs' hmkvs'
          injection h with h
          rw [← h]
          have href := processMessageKvs_refusal _ _ hmkvs'
            (lookup_setKey_self mkvs "refusal" Json.null)
          simp only [choiceOk]
          rw [lookup_setKey_ne _ "index" "message" _ (by decide),
            lookup_setKey_ne _ "index" "logprobs" _ (by decide),
            lookup_setKey_self,
            lookup_setKey_ne _ "logprobs" "message" _ (by decide),
            lookup_setKey_self,
            lookup_setKey_self]
          simp [optNum0, optNull, href]

theorem processChoices_all : ∀ (cs cs' : List Json),
    processChoices cs = Except.ok cs' → cs'.all choiceOk = true
  | [], cs', h => by
    simp only [processChoices] at h
    injection h with h
    simp [← h]
  | c :: rest, cs', h => by
    simp only [processChoices] at h
    split at h
    · exact absurd h (by simp)
    · rename_i c' hc'
      split at h
      · exact absurd h (by simp)
      · rename_i rest' hrest'
        injection h with h
        rw [← h]
        simp [List.all_cons, processChoice_ok c c' hc',
          processChoices_all rest rest' hrest']

/-- C6: every choice of a successfully translated response has `index = 0`,
a present-and-null `logprobs` key, and a message with a present-and-null
`refusal` key. -/
theorem choice_normalization (giga_resp : Json) (gpt_model : Option Json)
    (u1 u2 : String) (now : Int) (resp : ChatResponse)
    (h : process_gigachat_response giga_resp gpt_model u1 u2 now = Except.ok resp) :
    resp.choices.all choiceOk = true := by
  simp only [process_gigachat_response] at h
  split at h
  · exact absurd h (by simp)
  · split at h
    · exact absurd h (by simp)
    · split at h
      · exact absurd h (by simp)
      · split at h
        · exact absurd h (by simp)
        · rename_i choices' hchoices'
          injection h with h
          rw [← h]
          exact processChoices_all _ _ hchoices'

/-- Witness for C6: the sample backend completion. -/
theorem choice_normalization_witness :
    process_gigachat_response sampleGigaResp none "u" "v" 0 =
      Except.ok sampleChatResponse ∧
    sampleChatResponse.choices.all choiceOk = true :=
  ⟨rfl, choice_normalization sampleGigaResp none "u" "v" 0 sampleChatResponse rfl⟩

/-- C10: the `usage` object of every successfully translated response is the
fixed constant with 10 prompt tokens, 10 completion tokens, 20 total tokens
and zeroed token details. -/
theorem usage_placeholder (giga_resp : Json) (gpt_model : Option Json)
    (u1 u2 : String) (now : Int) (resp : ChatResponse)
    (h : process_gigachat_response giga_resp gpt_model u1 u2 now = Except.ok resp) :
    resp.usage = Json.obj
      [("prompt_tokens", Json.num 10),
       ("completion_tokens", Json.num 10),
       ("total_tokens", Json.num 20),
       ("prompt_tokens_details", Json.obj [("cached_tokens", Json.num 0)]),
       ("completion_tokens_details", Json.obj [("reasoning_tokens", Json.num 0)])] := by
  simp only [process_gigachat_response] at h
  split at h
  · exact absurd h (by simp)
  · split at h
    · exact absurd h (by simp)
    · split at h
      · exact absurd h (by simp)
      · split at h
        · exact absurd h (by simp)
        · injection h with h
          rw [← h]
          rfl

/-- Witness for C10: the sample backend completion. -/
theorem usage_placeholder_witness :
    process_gigachat_response sampleGigaResp none "u" "v" 0 =
      Except.ok sampleChatResponse ∧
    sampleChatResponse.usage = Json.obj
      [("prompt_tokens", Json.num 10),
       ("completion_tokens", Json.num 10),
       ("total_tokens", Json.num 20),
       ("prompt_tokens_details", Json.obj [("cached_tokens", Json.num 0)]),
       ("completion_tokens_details", Json.obj [("reasoning_tokens", Json.num 0)])] :=
  ⟨rfl, usage_placeholder sampleGigaResp none "u" "v" 0 sampleChatResponse rfl⟩

/-! ## Claims about the connection handler -/

theorem isDataFrame_sseFrame (p : String) : isDataFrame (sseFrame p) = true := by
  simp only [isDataFrame, sseFrame, String.data_append,
    List.isPrefixOf_iff_prefix, List.append_assoc]
  exact List.prefix_append _ _

/-- C8: a successful streaming response writes exactly one SSE data frame,
holding the StreamChunk built from `choices[0]` of the completed response,
then the `[DONE]` sentinel frame, and nothing after the sentinel is a data
frame. -/
theorem streaming_frames (backend : BackendChatRequest → Except String Json)
    (body : ParsedBody) (u1 u2 : String) (now : Int) (ws : List String)
    (h : handle_proxy_request backend body u1 u2 now =
      HttpResult.streamResponse 200 ws) :
    ∃ resp chunk,
      send_to_gigachat backend body.request u1 u2 now = Except.ok resp ∧
      buildStreamChunk resp = Except.ok chunk ∧
      ws = [sseFrame (dumps chunk), sseFrame "[DONE]", "\r\n\r\n"] ∧
      ws.filter isDataFrame = [sseFrame (dumps chunk), sseFrame "[DONE]"] ∧
      isDataFrame "\r\n\r\n" = false := by
  simp only [handle_proxy_request] at h
  split at h
  · exact absurd h (by simp)
  · rename_i resp hresp
    split at h
    · split at h
      · exact absurd h (by simp)
      · rename_i chunk hchunk
        injection h with h1 h2
        subst h2
        refine ⟨resp, chunk, hresp, hchunk, rfl, ?_, by decide⟩
        simp [List.filter, isDataFrame_sseFrame,
          (by decide : isDataFrame "\r\n\r\n" = false)]
    · exact absurd h (by simp)

/-- Witness for C8: the sample backend and a `stream = true` request. -/
theorem streaming_frames_witness :
    handle_proxy_request sampleBackend sampleStreamBody "u" "v" 0 =
      HttpResult.streamResponse 200 sampleStreamWrites ∧
    sampleStreamWrites.filter isDataFrame =
      [sseFrame (dumps sampleChunk), sseFrame "[DONE]"] ∧
    isDataFrame "\r\n\r\n" = false := by
  refine ⟨rfl, ?_, by decide⟩
  obtain ⟨resp, chunk, hsend, hchunk, hws, hfilter, hlast⟩ :=
    streaming_frames sampleBackend sampleStreamBody "u" "v" 0 sampleStreamWrites rfl
  have hlists : ([sseFrame (dumps chunk), sseFrame "[DONE]", "\r\n\r\n"] : List String) =
      [sseFrame (dumps sampleChunk), sseFrame "[DONE]", "\r\n\r\n"] :=
    hws.symm.trans rfl
  injection hlists with hhead _
  rw [hhead] at hfilter
  exact hfilter

/-- C9: a request body that lacks the `messages` key makes the request
translation fail with a `KeyError`, which the handler converts to a 500
error response; no success response is produced. -/
theorem missing_messages_error (backend : BackendChatRequest → Except String Json)
    (body : ParsedBody) (u1 u2 : String) (now : Int)
    (hm : body.request.messages = none) :
    transform_input_data body.request = Except.error "KeyError: messages" ∧
    handle_proxy_request backend body u1 u2 now =
      HttpResult.errorResponse 500 "KeyError: messages" := by
  have h1 : transform_input_data body.request = Except.error "KeyError: messages" := by
    simp [transform_input_data, hm]
  refine ⟨h1, ?_⟩
  simp [handle_proxy_request, send_to_gigachat, h1]

/-- Witness for C9: a body whose request record has no `messages`. -/
theorem missing_messages_error_witness :
    noMessagesBody.request.messages = none ∧
    handle_proxy_request sampleBackend noMessagesBody "u" "v" 0 =
      HttpResult.errorResponse 500 "KeyError: messages" :=
  ⟨rfl, (missing_messages_error sampleBackend noMessagesBody "u" "v" 0 rfl).2⟩
